import Mathlib

/-!
Shallow embedding of the JMESPath evaluator of BioPython-Convert
(src/biopython_convert/JMESPathGen.py), the file the claims are about.

The evaluator is `TreeInterpreterGenerator`, a subclass of the jmespath
library's `TreeInterpreter` that re-implements most visit methods so that
array-producing operators return Python generators (lazy sequences) instead
of lists, plus a memo table `self._generators` that records materializations
of generators keyed by the generator object.

Modelling conventions:
* JSON-ish runtime values are the inductive `Value`.  Python generators are
  represented by a handle `Value.gen h`; the evaluator state `GenState`
  carries, for every handle, the items the underlying producer will still
  yield (`producers`), the memo-table entries keyed by the generator object
  (`forcedTab`, written by `_gen_to_list` line 107) and the memo-table
  entries keyed by the integer `id()` of a generator (`chainTab`, written by
  `_is_false` line 216).  In Python both kinds of key live in the single
  dict `self._generators`; a dict lookup with the generator object as key
  (lines 104 and 119) can only ever find entries stored under the object
  itself, never entries stored under the int `id(...)`, because a generator
  object never compares equal to an int.  Splitting the dict by key kind
  makes that visible in the types.
* Machine integers do not occur; JMESPath numbers are modelled as `Int`
  (the float/int distinction is irrelevant to every claim below).
* Exceptions are `Except String` with the exception text as payload.
* One divergence from CPython object semantics, noted where it matters: a
  materialized list is stored persistently rather than as a mutable object,
  so a generator that yields *its own handle* (aliasing) is not modelled;
  no theorem below involves such a state.
-/

/-- JMESPath runtime values as manipulated by `TreeInterpreterGenerator`.
`null`/`bool`/`num`/`str` are the JSON scalars; `arr` an eager Python list;
`obj` a Python dict in insertion order; `opaque` a domain object (e.g. a
BioPython `SeqRecord`) exposing attributes but no `get` method; `gen h` a
Python generator object with identity `h`. -/
inductive Value where
  | null : Value
  | bool (b : Bool) : Value
  | num (n : Int) : Value
  | str (s : String) : Value
  | arr (l : List Value) : Value
  | obj (kvs : List (String × Value)) : Value
  | domain (attrs : List (String × Value)) : Value
  | gen (h : Nat) : Value

/-- `value.isGen` is true exactly when the value is a generator handle
(Python `isinstance(value, types.GeneratorType)`). -/
def Value.isGen : Value → Bool
  | .gen _ => true
  | _ => false

/-- Python `value is None`. -/
def Value.isNone : Value → Bool
  | .null => true
  | _ => false

/-- The evaluator state around `self._generators` (line 94).
`producers h` is what the generator object `h` will still yield;
`forcedTab h` is the memo entry keyed by the generator *object* (written at
line 107 as `self._generators[gen] = l`), always a materialized list;
`chainTab h` is the memo entry keyed by the *integer* `id(gen)` (written at
line 216 as `self._generators[id(old_value)] = value`), always an
`itertools.chain` of the peeked element and the advanced original
generator. -/
structure GenState where
  producers : Nat → List Value
  forcedTab : Nat → Option (List Value)
  chainTab : Nat → Option (Value × Nat)

/-- Pointwise update of a producer entry. -/
def setProd (f : Nat → List Value) (h : Nat) (l : List Value) : Nat → List Value :=
  fun h2 => if h2 = h then l else f h2

/-- Pointwise update of a memo entry keyed by the generator object. -/
def setForced (f : Nat → Option (List Value)) (h : Nat) (l : List Value) :
    Nat → Option (List Value) :=
  fun h2 => if h2 = h then some l else f h2

/-- A state with no generators pending and an empty memo table. -/
def emptyState : GenState :=
  { producers := fun _ => [], forcedTab := fun _ => none, chainTab := fun _ => none }

/-- Embeds `_gen_to_list(gen, recurse=False)` (lines 96-113 with the
`recurse` branch not taken), which is also what the per-element call at
line 111 executes.  A non-generator argument is returned unchanged (dicts
and lists skip the hashability lookup or miss the `GeneratorType` check);
a generator is first looked up in the memo table keyed by the object
(line 104) — that lookup sees only `forcedTab` — and, if not yet
materialized, is exhausted by `list(gen)` and the result memoized under the
object key (lines 106-107). -/
def gen_force1 (s : GenState) (v : Value) : Value × GenState :=
  match v with
  | .gen h =>
    match s.forcedTab h with
    | some l => (.arr l, s)
    | none =>
        let l := s.producers h
        (.arr l, { s with producers := setProd s.producers h [],
                          forcedTab := setForced s.forcedTab h l })
  | _ => (v, s)

/-- The element loop of `_gen_to_list` at `recurse=True` (lines 108-111):
each element of the just-materialized list that is itself a generator is
replaced by `self._gen_to_list(l[i])` — note the inner call does *not* pass
`recurse`, so it is the one-level `gen_force1`. -/
def forceElems : GenState → List Value → List Value × GenState
  | s, [] => ([], s)
  | s, x :: rest =>
      let p1 := gen_force1 s x
      let p2 := forceElems p1.2 rest
      (p1.1 :: p2.1, p2.2)

/-- Embeds `_gen_to_list(gen, recurse)` (lines 96-113).  With
`recurse=True` the stored list is mutated in place by the loop of
lines 108-111; once the call returns, the memo entry for `h` holds the
element-forced list, modelled here by rewriting the entry after the loop. -/
def gen_to_list (s : GenState) (v : Value) (recurse : Bool) : Value × GenState :=
  match v with
  | .gen h =>
    match s.forcedTab h with
    | some l => (.arr l, s)
    | none =>
        let l := s.producers h
        let s1 : GenState :=
          { s with producers := setProd s.producers h [],
                   forcedTab := setForced s.forcedTab h l }
        if recurse then
          let p := forceElems s1 l
          (.arr p.1, { p.2 with forcedTab := setForced p.2.forcedTab h p.1 })
        else (.arr l, s1)
  | _ => (v, s)

/-- Embeds the argument rewriting in `visit` (lines 115-120): when the
current value passed to a visit method is a generator object, it is
replaced by `self._generators.get(args[0], args[0])` — a lookup keyed by
the generator object, which can only find `forcedTab` entries. -/
def visitLookup (s : GenState) (v : Value) : Value :=
  match v with
  | .gen h =>
    match s.forcedTab h with
    | some l => .arr l
    | none => .gen h
  | _ => v

/-- Embeds the base class `TreeInterpreter._is_false` of the jmespath
library (`return value == '' or value == [] or value == {} or value is
None or value is False`), which the override at line 220 delegates to for
non-generator values.  Note that the Number 0 is *not* falsy here. -/
def super_is_false : Value → Bool
  | .str s => s = ""
  | .arr l => l.isEmpty
  | .obj kvs => kvs.isEmpty
  | .null => true
  | .bool b => !b
  | _ => false

/-- Embeds `TreeInterpreterGenerator._is_false` (lines 209-220): a
generator is peeked with `next(value)`; on success the advanced original
generator is wrapped as `itertools.chain((peek,), value)` and that chain is
registered under the *integer* key `id(old_value)` (line 216), i.e. in
`chainTab`, and `False` is returned; on `StopIteration` the result is
`True`.  Non-generators fall through to the base class check. -/
def _is_false (s : GenState) (v : Value) : Bool × GenState :=
  match v with
  | .gen h =>
    match s.producers h with
    | [] => (true, s)
    | x :: rest =>
        (false, { s with producers := setProd s.producers h rest,
                         chainTab := fun h2 => if h2 = h then some (x, h) else s.chainTab h2 })
  | _ => (super_is_false v, s)

/-- `TreeInterpreter._is_true` of the jmespath library: the negation of
`_is_false`, restricted here to non-generator values (the filter predicate
results the claims exercise). -/
def super_is_true (v : Value) : Bool :=
  !(super_is_false v)

/-- Python `value == 0` as tested at line 146 of `visit_not_expression`.
In Python, `False == 0` and `True == 1` hold (bool is an int subclass), so
besides the Numbers 0 the Boolean `false` also satisfies this test; no
other JMESPath value compares equal to the int 0. -/
def pyEqZero : Value → Bool
  | .num n => n = 0
  | .bool b => !b
  | _ => false

/-- Embeds `visit_not_expression` (lines 144-150): if the evaluated child
compares `== 0` the result is the Boolean `false` (the `!0` special case);
otherwise the result is `self._is_false(original_result)` — the overridden,
generator-peeking `_is_false`.  The child evaluation itself is abstracted:
`v` is the value the child expression produced. -/
def visit_not_expression (s : GenState) (v : Value) : Value × GenState :=
  if pyEqZero v then (.bool false, s)
  else
    let p := _is_false s v
    (.bool p.1, p.2)

mutual
/-- Python structural `==` on JMESPath values, used by the jmespath base
library's `_equals` after its top-level special-number-case filter.  Two
caveats, both immaterial to every theorem below: Python dict equality is
insertion-order-insensitive while this model compares in order, and the
bool/int equality quirk (`[True] == [1]`) is not applied inside nested
containers. -/
def beqValue : Value → Value → Bool
  | .null, .null => true
  | .bool a, .bool b => a = b
  | .num a, .num b => a = b
  | .str a, .str b => a = b
  | .arr a, .arr b => beqValueList a b
  | .obj a, .obj b => beqValuePairs a b
  | .domain a, .domain b => beqValuePairs a b
  | .gen a, .gen b => a = b
  | .bool a, .num n => (a && n = 1) || (!a && n = 0)
  | .num n, .bool a => (a && n = 1) || (!a && n = 0)
  | _, _ => false

/-- Elementwise `==` on Python lists. -/
def beqValueList : List Value → List Value → Bool
  | [], [] => true
  | x :: xs, y :: ys => beqValue x y && beqValueList xs ys
  | _, _ => false

/-- Elementwise `==` on ordered key/value pairs. -/
def beqValuePairs : List (String × Value) → List (String × Value) → Bool
  | [], [] => true
  | (k, x) :: xs, (k2, y) :: ys => k = k2 && beqValue x y && beqValuePairs xs ys
  | _, _ => false
end

/-- The jmespath base library's `_is_special_number_case(x, y)`: one side a
non-bool number equal to 0 or 1 and the other side a bool. -/
def _is_special_number_case (x y : Value) : Bool :=
  match x, y with
  | .num n, .bool _ => n = 0 || n = 1
  | .bool _, .num n => n = 0 || n = 1
  | _, _ => false

/-- The jmespath base library's `_equals(x, y)` backing the `==`/`!=`
comparator functions: the special number case is filtered to `False`,
everything else is Python `==`. -/
def jmes_equals (x y : Value) : Bool :=
  if _is_special_number_case x y then false else beqValue x y

/-- The six comparator node kinds. -/
inductive CmpOp where
  | eq | ne | lt | lte | gt | gte
deriving DecidableEq

/-- `node['value'] in self._EQUALITY_OPS` (line 234); the base class sets
`_EQUALITY_OPS = ['eq', 'ne']`. -/
def isEqualityOp : CmpOp → Bool
  | .eq => true
  | .ne => true
  | _ => false

/-- The exception text raised by CPython when line 246 evaluates
`jmespath._is_comparable`: the jmespath package's `__init__` module defines
only `compile`, `search`, `Options` and the imported submodule names; the
helper `_is_comparable` is a private function of `jmespath.visitor` and is
not re-exported at package level in any released version, so the attribute
access raises. -/
def isComparableAttrError : String :=
  "AttributeError: module jmespath has no attribute _is_comparable"

/-- Embeds `visit_comparator` (lines 231-249) with the two child
evaluations abstracted into the already-computed operands `left` and
`right` (the children are visited before the comparison in both branches).
For `==`/`!=` the base library's `_equals` is applied; for the ordering
operators the guard at line 246 evaluates `jmespath._is_comparable`, an
attribute the jmespath package does not have, so an `AttributeError`
escapes before any comparison or `None` can be produced. -/
def visit_comparator (op : CmpOp) (left right : Value) : Except String Value :=
  match op with
  | .eq => .ok (.bool (jmes_equals left right))
  | .ne => .ok (.bool (!(jmes_equals left right)))
  | _ => .error isComparableAttrError

/-- `isinstance(base, (list, types.GeneratorType, map, filter))` as tested
at line 154 (and 166, 191): eager lists and generators are array-like,
everything else is not. -/
def isArrayLike : Value → Bool
  | .arr _ => true
  | .gen _ => true
  | _ => false

/-- What iterating the body of `visit_filter_projection` (lines 152-162)
yields for a given base, with the two child expressions abstracted as the
functions `pred` (the comparator child, line 158) and `proj` (the left
child, line 160): elements whose predicate result is `_is_true` are mapped
through `proj` and non-`None` results are yielded.  For a base that is not
array-like the body executes `return None`, which inside a generator
function merely raises `StopIteration`: the iteration yields nothing. -/
def filterProjItems (pred proj : Value → Value) (baseItems : List Value) : List Value :=
  ((baseItems.filter (fun e => super_is_true (pred e))).map proj).filter
    (fun c => !c.isNone)

/-- Embeds a call of `visit_filter_projection` (lines 152-162).  Because
the Python function body contains `yield`, the call itself returns a fresh
generator object immediately — the non-array check and its `return None`
run only when that generator is iterated, and terminate the iteration
instead of producing `None`.  The call is modelled as allocating the fresh
handle `fresh` whose items are what iterating the body yields; the base's
evaluation is abstracted into `base` (for a lazy base the items it will
deliver are read off `producers`). -/
def visit_filter_projection (s : GenState) (fresh : Nat) (pred proj : Value → Value)
    (base : Value) : Value × GenState :=
  let items : List Value :=
    match base with
    | .arr l => filterProjItems pred proj l
    | .gen h => filterProjItems pred proj (s.producers h)
    | _ => []
  (.gen fresh, { s with producers := setProd s.producers fresh items })

/-- Field lookup in an ordered key/value list (Python dict lookup /
`getattr` on a domain object's attribute table). -/
def lookupStr : List (String × Value) → String → Option Value
  | [], _ => none
  | (k, v) :: r, n => if k = n then some v else lookupStr r n

/-- `kwargs['scope'].get(name, None)` when a scope was passed, else `None`
(lines 133-135). -/
def scope_get : Option (List (String × Value)) → String → Value
  | some sc, name => (lookupStr sc name).getD .null
  | none, _ => .null

/-- Embeds `visit_field` (lines 122-135).  `value.get(node['value'])` is
attempted first: on a dict (Object) it returns the key's value *or `None`
when the key is absent* — no exception, so the scope is never consulted
for an Object.  Values without a `get` method raise `AttributeError` and
`getattr(value, name)` is attempted: on an Opaque domain object a present
attribute is returned, a missing one raises again and falls through to the
scope chain; every other kind has neither a `get` method nor a matching
attribute for a JMESPath identifier, so it falls through to the scope
directly.  An absent scope entry (or no scope at all) gives `None`. -/
def visit_field (scope : Option (List (String × Value))) (v : Value) (name : String) : Value :=
  match v with
  | .obj kvs => (lookupStr kvs name).getD .null
  | .domain attrs =>
    match lookupStr attrs name with
    | some w => w
    | none => scope_get scope name
  | _ => scope_get scope name

/-- The argument validation `itertools.islice` performs at construction
time (before the base is even turned into an iterator): start and stop
must be `None` or non-negative integers, step must be `None` or a positive
integer, else `ValueError` is raised. -/
def isliceValid (start stop step : Option Int) : Bool :=
  (match start with | none => true | some a => 0 ≤ a) &&
  (match stop with | none => true | some a => 0 ≤ a) &&
  (match step with | none => true | some a => 1 ≤ a)

/-- Every `step`-th element of a list, starting with the first. -/
def everyNth (step : Nat) : List Value → List Value
  | [] => []
  | x :: rest => x :: everyNth step (rest.drop (step - 1))
termination_by l => l.length
decreasing_by
  simp only [List.length_drop, List.length_cons]
  omega

/-- The elements `itertools.islice(·, start, stop, step)` delivers from a
source whose items are `l`, for already-validated arguments: indices `i`
with `start ≤ i < stop` and `(i - start) % step = 0`, in order.  `None`
means 0 / unbounded / 1 respectively. -/
def isliceSel (l : List Value) (start stop step : Option Int) : List Value :=
  let l1 := match stop with | none => l | some b => l.take b.toNat
  let l2 := l1.drop (match start with | none => 0 | some a => a.toNat)
  everyNth (match step with | none => 1 | some st => st.toNat) l2

/-- What `iter(base)` ranges over, per base kind: lists and generators
their items, strings their characters, dicts their keys; scalars and
`None` are not iterable (`TypeError`). -/
def sliceSourceItems (s : GenState) : Value → Option (List Value)
  | .arr l => some l
  | .gen h => some (s.producers h)
  | .str t => some (t.data.map fun c => .str (String.mk [c]))
  | .obj kvs => some (kvs.map fun kv => .str kv.1)
  | _ => none

/-- Embeds `visit_slice` (lines 180-181):
`return itertools.islice(value, *node['children'])`.  The call validates
the three slice arguments, then wraps the base in a *new* lazy iterator —
it neither looks up nor writes the memo table and pulls nothing from the
base at construction; the items the new sequence will deliver are the
islice selection of the base's remaining items.  The fresh generator
identity is `fresh`. -/
def visit_slice (s : GenState) (fresh : Nat) (base : Value)
    (start stop step : Option Int) : Except String (Value × GenState) :=
  if !isliceValid start stop step then
    .error "ValueError: Indices for islice() must be None or non-negative, step positive"
  else
    match sliceSourceItems s base with
    | none => .error "TypeError: islice argument is not iterable"
    | some items =>
        .ok (.gen fresh,
             { s with producers := setProd s.producers fresh (isliceSel items start stop step) })

/-!
The `let` / scope-chain fragment (claims about `_func_let`,
`visit_function_expression`, `visit_expref` and the scope fallback of
`visit_field`) involves expression references: values that carry an AST
node.  It is embedded in its own small universe of mutually inductive
nodes and values so that the generator machinery above stays first-order.
The node kinds are exactly the ones occurring in the spec's `let`
programs. -/

mutual
/-- AST nodes of the `let` fragment: fields, literals, multi-select-dicts
(whose children are the key-val-pairs, visited via `visit_key_val_pair`
line 263-264), expression references, and function-expressions whose
registered name is `let`. -/
inductive LNode where
  | field (name : String) : LNode
  | literal (v : LVal) : LNode
  | msd (children : List (String × LNode)) : LNode
  | expref (child : LNode) : LNode
  | funcLet (args : List LNode) : LNode

/-- Runtime values of the `let` fragment.  `expref node ctx` is the
`_Expression` object built by `visit_expref` (lines 222-223 and 84-87): it
captures the subexpression node and the current value (`context`) — and
nothing else; in particular no scope. -/
inductive LVal where
  | null : LVal
  | num (n : Int) : LVal
  | obj (kvs : List (String × LVal)) : LVal
  | expref (node : LNode) (ctx : LVal) : LVal
end

/-- Errors of the `let` fragment: the registry's signature validation
failure, and exhaustion of the evaluation fuel (the Python evaluator can
recurse unboundedly through expression references; every theorem below
supplies ample fuel). -/
inductive LErr where
  | argumentTypeError : LErr
  | outOfFuel : LErr
deriving DecidableEq

/-- A lexical scope: the dict bound to `kwargs['scope']`. -/
abbrev LScope := List (String × LVal)

/-- Ordered lookup in a scope / dict. -/
def lookupL : List (String × LVal) → String → Option LVal
  | [], _ => none
  | (k, v) :: r, n => if k = n then some v else lookupL r n

/-- The scope built by `_func_let` (lines 66-72): when the kwargs carry a
`scope`, a copy of it updated with the new bindings (new names win on
collision); otherwise the new bindings alone.  An update of a copied dict
is lookup-equivalent to prepending the new bindings. -/
def func_let_scope (kwscope : Option LScope) (bindings : LScope) : LScope :=
  match kwscope with
  | some outer => bindings ++ outer
  | none => bindings

/-- `visit_field` of the `let` fragment, the same lines 122-135 as
`visit_field` above restricted to the value kinds of this fragment: a dict
answers `get` (absent key gives `None` without consulting the scope); a
number or `None` or an `_Expression` object has neither a `get` method nor
a matching attribute, so the lookup falls through to the scope. -/
def lfield (scope : Option LScope) (v : LVal) (name : String) : LVal :=
  match v with
  | .obj kvs => (lookupL kvs name).getD .null
  | _ =>
    match scope with
    | some sc => (lookupL sc name).getD .null
    | none => .null

/-- Embeds the evaluator fragment driving `let`:
* `field` — lines 122-135 (`lfield`);
* `literal` — base class, returns the embedded constant;
* `msd` — `visit_multi_select_dict` (lines 269-275): `None` base gives
  `None`, else each child is visited with the same value and kwargs;
* `expref` — `visit_expref` (lines 222-223): captures child node and
  current value only;
* `funcLet` — `visit_function_expression` (lines 137-142): every child is
  visited with the current value *and the current kwargs*, but the call at
  line 142, `self._functions.call_function(node['value'], resolved_args)`,
  forwards no `**kwargs`; `ExtendedFunctions.call_function` (lines 54-63)
  then validates the `[object, expref]` signature and invokes `_func_let`
  with empty kwargs, so the `scope` branch of lines 67-69 sees no outer
  scope and the expression reference is evaluated against its captured
  context under the new bindings alone. -/
def lvisit : Nat → LNode → LVal → Option LScope → Except LErr LVal
  | 0, _, _, _ => .error .outOfFuel
  | Nat.succ fuel, node, value, scope =>
    match node with
    | .field name => .ok (lfield scope value name)
    | .literal v => .ok v
    | .msd children =>
      match value with
      | .null => .ok .null
      | _ => do
          let kvs ← children.mapM (fun kv => do
            let w ← lvisit fuel kv.2 value scope
            pure (kv.1, w))
          pure (LVal.obj kvs)
    | .expref child => .ok (.expref child value)
    | .funcLet args => do
        let resolved ← args.mapM (fun n => lvisit fuel n value scope)
        match resolved with
        | [LVal.obj bindings, LVal.expref enode ectx] =>
            lvisit fuel enode ectx (some (func_let_scope none bindings))
        | [_, _] => .error .argumentTypeError
        | _ => .error .argumentTypeError

/-- Embeds the argument loop of `visit_function_expression`
(lines 137-142): every child result is passed through
`self._gen_to_list(..., True)` before the registry is called; the child
evaluations themselves are abstracted into the already-computed list of
child results. -/
def resolve_args : GenState → List Value → List Value × GenState
  | s, [] => ([], s)
  | s, v :: rest =>
      let p := gen_to_list s v true
      let q := resolve_args p.2 rest
      (p.1 :: q.1, q.2)

mutual
/-- Whether a value contains a generator handle anywhere (at top level or
nested inside lists / dict values at any depth) — the negation of "fully
materialized". -/
def containsGen : Value → Bool
  | .gen _ => true
  | .arr l => containsGenList l
  | .obj kvs => containsGenPairs kvs
  | .domain kvs => containsGenPairs kvs
  | _ => false

/-- `containsGen` over a list of values. -/
def containsGenList : List Value → Bool
  | [] => false
  | x :: r => containsGen x || containsGenList r

/-- `containsGen` over the values of key/value pairs. -/
def containsGenPairs : List (String × Value) → Bool
  | [] => false
  | kv :: r => containsGen kv.2 || containsGenPairs r
end

/-- The initial state of the C2 examples is arbitrary; this helper lemma
records that a first forcing installs exactly the returned list in the
memo entry keyed by the generator object. -/
theorem gen_to_list_forcedTab_self (s : GenState) (h : Nat) (r : Bool)
    (hm : s.forcedTab h = none) :
    ∃ l, (gen_to_list s (.gen h) r).1 = .arr l ∧
      (gen_to_list s (.gen h) r).2.forcedTab h = some l := by
  cases r with
  | false =>
      exact ⟨s.producers h, by simp [gen_to_list, hm], by simp [gen_to_list, hm, setForced]⟩
  | true =>
      refine ⟨(forceElems { s with producers := setProd s.producers h [],
                                   forcedTab := setForced s.forcedTab h (s.producers h) }
                (s.producers h)).1, ?_, ?_⟩ <;>
        simp [gen_to_list, hm, setForced]

/-- A memo-table hit: forcing an already-materialized handle returns the
cached list and leaves the state unchanged, for either `recurse` flag. -/
theorem gen_to_list_memoized (s : GenState) (h : Nat) (l : List Value) (r : Bool)
    (hm : s.forcedTab h = some l) :
    gen_to_list s (.gen h) r = (.arr l, s) := by
  simp [gen_to_list, hm]

/-- C2: forcing is idempotent and memoized by handle identity — forcing
any value twice (with any combination of the `recurse` flags) returns the
same materialization both times, the second forcing leaves the state
untouched (the exhausted producer is not re-iterated), and a later
dispatch through `visit`'s lookup (lines 115-120) against the same handle
observes exactly the cached materialization. -/
theorem C2_force_idempotent_memoized (s : GenState) (v : Value) (r1 r2 : Bool) :
    (gen_to_list (gen_to_list s v r1).2 v r2).1 = (gen_to_list s v r1).1 ∧
    (gen_to_list (gen_to_list s v r1).2 v r2).2 = (gen_to_list s v r1).2 ∧
    visitLookup (gen_to_list s v r1).2 v = (gen_to_list s v r1).1 := by
  cases v with
  | gen h =>
      cases hm : s.forcedTab h with
      | some l =>
          rw [gen_to_list_memoized s h l r1 hm]
          rw [gen_to_list_memoized s h l r2 hm]
          exact ⟨rfl, rfl, by simp [visitLookup, hm]⟩
      | none =>
          obtain ⟨l, h1, h2⟩ := gen_to_list_forcedTab_self s h r1 hm
          rw [gen_to_list_memoized _ h l r2 h2, h1]
          exact ⟨rfl, rfl, by simp [visitLookup, h2]⟩
  | null => simp [gen_to_list, visitLookup]
  | bool b => simp [gen_to_list, visitLookup]
  | num n => simp [gen_to_list, visitLookup]
  | str t => simp [gen_to_list, visitLookup]
  | arr l => simp [gen_to_list, visitLookup]
  | obj kvs => simp [gen_to_list, visitLookup]
  | domain kvs => simp [gen_to_list, visitLookup]

/-- The state of the C1 scenario: generator 0 is pending with the single
item `7`; the memo table is empty. -/
def s0C1 : GenState :=
  { producers := fun h => if h = 0 then [Value.num 7] else [],
    forcedTab := fun _ => none, chainTab := fun _ => none }

/-- C1: evaluation of the code at the failing input.  Testing a non-empty
generator for truthiness pulls one element and registers the rebuilt
chain — but only under the *integer* key `id(old_value)` (`chainTab`),
which no later lookup consults: `visit`'s dispatch lookup (keyed by the
generator object) still misses, and forcing the same handle afterwards
yields the empty remainder instead of the full sequence including the
peeked element, contradicting the claim. -/
theorem C1_peek_loses_element :
    (_is_false s0C1 (Value.gen 0)).1 = false ∧
    (_is_false s0C1 (Value.gen 0)).2.chainTab 0 = some (Value.num 7, 0) ∧
    visitLookup (_is_false s0C1 (Value.gen 0)).2 (Value.gen 0) = Value.gen 0 ∧
    (gen_to_list (_is_false s0C1 (Value.gen 0)).2 (Value.gen 0) false).1 = Value.arr [] ∧
    (gen_to_list (_is_false s0C1 (Value.gen 0)).2 (Value.gen 0) false).1
      ≠ Value.arr [Value.num 7] := by
  refine ⟨rfl, rfl, rfl, rfl, ?_⟩
  intro hcontra
  simp [s0C1, _is_false, gen_to_list, setProd] at hcontra

/-- The state of the C6 scenario: generator 0 yields generator 1, which
yields generator 2, which yields the number 7 — a lazy sequence nested two
levels deep inside the outermost one. -/
def s0C6 : GenState :=
  { producers := fun h =>
      if h = 0 then [Value.gen 1]
      else if h = 1 then [Value.gen 2]
      else if h = 2 then [Value.num 7]
      else [],
    forcedTab := fun _ => none, chainTab := fun _ => none }

/-- C6 counterexample: resolving the function argument `generator 0` with
`_gen_to_list(..., True)` (line 140) materializes the argument and its
direct generator element, but the generator nested two levels deep
survives unforced inside the resolved argument, so the implementation does
*not* receive fully materialized arguments — the claim fails at this
input. -/
theorem C6_counterexample_depth_two_not_forced :
    (resolve_args s0C6 [Value.gen 0]).1 = [Value.arr [Value.arr [Value.gen 2]]] ∧
    containsGenList (resolve_args s0C6 [Value.gen 0]).1 = true ∧
    (resolve_args s0C6 [Value.gen 0]).2.forcedTab 2 = none := by
  exact ⟨rfl, rfl, rfl⟩

/-- The one-level element force never returns a generator handle. -/
theorem gen_force1_not_gen (s : GenState) (v : Value) :
    ((gen_force1 s v).1).isGen = false := by
  cases v with
  | gen h => cases hm : s.forcedTab h <;> simp [gen_force1, hm, Value.isGen]
  | null => rfl
  | bool b => rfl
  | num n => rfl
  | str t => rfl
  | arr l => rfl
  | obj kvs => rfl
  | domain kvs => rfl

/-- No element produced by the `recurse=True` loop is a generator
handle. -/
theorem forceElems_not_gen (l : List Value) :
    ∀ (s : GenState), ∀ x ∈ (forceElems s l).1, x.isGen = false := by
  induction l with
  | nil => intro s x hx; simp [forceElems] at hx
  | cons y rest ih =>
      intro s x hx
      simp only [forceElems, List.mem_cons] at hx
      rcases hx with hx | hx
      · subst hx; exact gen_force1_not_gen s y
      · exact ih _ x hx

/-- C6 amended: resolving a function argument with
`_gen_to_list(..., True)` (line 140) forces a not-yet-materialized
LazySequence argument and, one level deep, every LazySequence that is a
direct element of it — the resolved argument is an eager array none of
whose elements is an unforced LazySequence.  (Sequences nested deeper
inside those elements may remain unforced, as the counterexample shows.) -/
theorem C6_amended_one_level_forcing (s : GenState) (h : Nat)
    (hm : s.forcedTab h = none) :
    ∃ l2, (gen_to_list s (.gen h) true).1 = .arr l2 ∧ ∀ x ∈ l2, x.isGen = false := by
  refine ⟨(forceElems { s with producers := setProd s.producers h [],
                               forcedTab := setForced s.forcedTab h (s.producers h) }
            (s.producers h)).1, ?_, ?_⟩
  · simp [gen_to_list, hm]
  · exact forceElems_not_gen _ _

/-- Witness for the amended C6 theorem at the concrete scenario state. -/
theorem C6_amended_one_level_forcing_witness :
    ∃ l2, (gen_to_list s0C6 (.gen 0) true).1 = .arr l2 ∧ ∀ x ∈ l2, x.isGen = false :=
  C6_amended_one_level_forcing s0C6 0 rfl

/-- C3: evaluation of the code at the failing input.  A filter-projection
whose base is the scalar Number 3 (or Null) returns a *fresh generator*,
not Null: calling the generator function `visit_filter_projection` returns
the generator object immediately, and its body's `return None` on the
non-array check only terminates the iteration, so forcing the result gives
the empty array — the very outcome (an empty lazy array instead of Null)
the claim rules out. -/
theorem C3_filter_projection_scalar_base_not_null :
    (visit_filter_projection emptyState 5 (fun _ => Value.bool true) (fun v => v)
        (Value.num 3)).1 = Value.gen 5 ∧
    (visit_filter_projection emptyState 5 (fun _ => Value.bool true) (fun v => v)
        (Value.num 3)).1 ≠ Value.null ∧
    (gen_to_list
        (visit_filter_projection emptyState 5 (fun _ => Value.bool true) (fun v => v)
          (Value.num 3)).2 (Value.gen 5) false).1 = Value.arr [] ∧
    (visit_filter_projection emptyState 6 (fun _ => Value.bool true) (fun v => v)
        Value.null).1 = Value.gen 6 ∧
    (visit_filter_projection emptyState 6 (fun _ => Value.bool true) (fun v => v)
        Value.null).1 ≠ Value.null := by
  refine ⟨rfl, ?_, rfl, rfl, ?_⟩ <;> intro hcontra <;> cases hcontra

/-- C5 counterexample: the name `a` is bound in the scope chain and absent
from the current Object value, yet field access resolves to Null (the
`dict.get` default), not to the scope binding `5`: for an Object base a
missing key raises no `AttributeError`, so the scope chain is never
consulted, contradicting the claim. -/
theorem C5_counterexample_object_shadows_scope :
    visit_field (some [("a", Value.num 5)]) (Value.obj [("b", Value.num 1)]) "a"
      = Value.null ∧
    visit_field (some [("a", Value.num 5)]) (Value.obj [("b", Value.num 1)]) "a"
      ≠ Value.num 5 := by
  refine ⟨rfl, ?_⟩
  intro hcontra
  cases hcontra

/-- Values that support neither a `get` method nor attribute access for a
JMESPath identifier: every kind except Object and Opaque. -/
def fallsToScope : Value → Bool
  | .obj _ => false
  | .domain _ => false
  | _ => true

/-- C5 amended: field resolution proceeds direct key lookup on an Object →
attribute access on an Opaque → scope chain → Null, but a later stage is
reached only when the value supports no earlier one: an Object answers the
key lookup with its value *or Null* (an absent key never falls through to
the scope); an Opaque missing the attribute falls to the scope chain, as
does every value kind with neither key nor attribute access; a name
unbound in the value and in the scope — or looked up with no scope at
all — resolves to Null, never an error. -/
theorem C5_amended_field_resolution_order (sc kvs attrs : List (String × Value))
    (name : String) (w v : Value) :
    visit_field (some sc) (.obj kvs) name = (lookupStr kvs name).getD .null ∧
    (lookupStr attrs name = some v → visit_field (some sc) (.domain attrs) name = v) ∧
    (lookupStr attrs name = none →
      visit_field (some sc) (.domain attrs) name = (lookupStr sc name).getD .null) ∧
    (fallsToScope w = true →
      visit_field (some sc) w name = (lookupStr sc name).getD .null) ∧
    (fallsToScope w = true → visit_field none w name = .null) := by
  refine ⟨rfl, ?_, ?_, ?_, ?_⟩
  · intro hv; simp [visit_field, hv]
  · intro hv; simp [visit_field, hv, scope_get]
  · intro hw; cases w <;> simp_all [visit_field, scope_get, fallsToScope]
  · intro hw; cases w <;> simp_all [visit_field, scope_get, fallsToScope]

/-- Witness for the amended C5 theorem: at the concrete instantiation, the
Object with key `b` resolves `a` to Null; the Opaque with attribute `a`
resolves to 3; the attribute-less Opaque and the number 0 resolve `a` to
the scope binding 5; without a scope the number 0 resolves to Null. -/
theorem C5_amended_field_resolution_order_witness :
    visit_field (some [("a", Value.num 5)]) (Value.obj [("b", Value.num 1)]) "a"
      = (lookupStr [("b", Value.num 1)] "a").getD Value.null ∧
    visit_field (some [("a", Value.num 5)]) (Value.domain [("a", Value.num 3)]) "a"
      = Value.num 3 ∧
    visit_field (some [("a", Value.num 5)]) (Value.num 0) "a" = Value.num 5 ∧
    visit_field none (Value.num 0) "a" = Value.null := by
  have h1 := C5_amended_field_resolution_order [("a", Value.num 5)] [("b", Value.num 1)]
    [("a", Value.num 3)] "a" (Value.num 0) (Value.num 3)
  exact ⟨h1.1, h1.2.1 rfl, (h1.2.2.2.1 rfl).trans rfl, h1.2.2.2.2 rfl⟩

/-- C7: evaluation of the code at the failing input.  Negating the Boolean
`false` returns `false`, not `true`: the `original_result == 0` test at
line 146 is satisfied by Python's `False == 0`, so the `!0` special case
fires for the Boolean too.  The remaining listed cases behave as claimed:
`!0` is `false`, and negating Null, the empty String, the empty Array and
the empty Object returns `true`. -/
theorem C7_not_expression_bool_false :
    (visit_not_expression emptyState (Value.bool false)).1 = Value.bool false ∧
    (visit_not_expression emptyState (Value.bool false)).1 ≠ Value.bool true ∧
    (visit_not_expression emptyState (Value.num 0)).1 = Value.bool false ∧
    (visit_not_expression emptyState Value.null).1 = Value.bool true ∧
    (visit_not_expression emptyState (Value.str "")).1 = Value.bool true ∧
    (visit_not_expression emptyState (Value.arr [])).1 = Value.bool true ∧
    (visit_not_expression emptyState (Value.obj [])).1 = Value.bool true := by
  refine ⟨rfl, ?_, rfl, rfl, rfl, rfl, rfl⟩
  intro hcontra
  simp [visit_not_expression, pyEqZero] at hcontra

/-- C8: evaluation of the code at the failing input.  An ordering
comparison of two Numbers does not produce the boolean outcome of the
numeric comparison — it raises, because line 246 evaluates
`jmespath._is_comparable`, an attribute the jmespath package module does
not define.  Equality comparisons (the `_EQUALITY_OPS` branch) still
work. -/
theorem C8_ordering_comparator_raises :
    visit_comparator CmpOp.lt (Value.num 1) (Value.num 2)
      = Except.error isComparableAttrError ∧
    visit_comparator CmpOp.lt (Value.num 1) (Value.num 2)
      ≠ Except.ok (Value.bool true) ∧
    visit_comparator CmpOp.gte (Value.str "a") (Value.num 2)
      ≠ Except.ok Value.null ∧
    visit_comparator CmpOp.eq (Value.num 1) (Value.num 1)
      = Except.ok (Value.bool true) ∧
    visit_comparator CmpOp.ne (Value.num 1) (Value.num 2)
      = Except.ok (Value.bool true) := by
  refine ⟨rfl, ?_, ?_, rfl, rfl⟩ <;> intro hcontra <;> cases hcontra

/-- With step 1 the islice element selection keeps every element. -/
theorem everyNth_one (l : List Value) : everyNth 1 l = l := by
  induction l with
  | nil => simp [everyNth]
  | cons x rest ih => simpa [everyNth] using ih

/-- With all three arguments defaulted the islice selection is the whole
source sequence. -/
theorem isliceSel_defaults (l : List Value) : isliceSel l none none none = l := by
  simp [isliceSel, everyNth_one]

/-- C9: a slice over a lazy base does not force it — the memo table and
the base's pending producer are untouched — and returns a fresh
LazySequence whose items are the `start:stop:step` selection of the base's
items, with `None` arguments defaulting to 0 / unbounded / 1; a negative
step fails at construction with `ValueError` instead of producing a
value. -/
theorem C9_slice_lazy_selection (s : GenState) (fresh h : Nat)
    (start stop step : Option Int)
    (hval : isliceValid start stop step = true) (hfresh : fresh ≠ h) :
    (∃ s2, visit_slice s fresh (.gen h) start stop step = .ok (.gen fresh, s2) ∧
      s2.producers fresh = isliceSel (s.producers h) start stop step ∧
      s2.producers h = s.producers h ∧
      s2.forcedTab = s.forcedTab ∧
      s2.chainTab = s.chainTab) ∧
    isliceSel (s.producers h) none none none = s.producers h ∧
    (∀ st : Int, st < 0 →
      visit_slice s fresh (.gen h) start stop (some st) =
        .error "ValueError: Indices for islice() must be None or non-negative, step positive") := by
  have hmain : visit_slice s fresh (.gen h) start stop step =
      .ok (.gen fresh,
        { s with producers := setProd s.producers fresh
                   (isliceSel (s.producers h) start stop step) }) := by
    simp [visit_slice, hval, sliceSourceItems]
  refine ⟨⟨_, hmain, ?_, ?_, rfl, rfl⟩, isliceSel_defaults _, ?_⟩
  · simp [setProd]
  · simp [setProd, Ne.symm hfresh]
  · intro st hst
    have hd : ¬ (1 ≤ st) := by omega
    have hv : isliceValid start stop (some st) = false := by
      simp [isliceValid, hd]
    simp [visit_slice, hv]

/-- The state of the C9 witness: generator 3 is pending with three
items. -/
def s0C9 : GenState :=
  { producers := fun h => if h = 3 then [Value.num 1, Value.num 2, Value.num 3] else [],
    forcedTab := fun _ => none, chainTab := fun _ => none }

/-- Witness for C9 at a concrete lazy base and slice `1::2`. -/
theorem C9_slice_lazy_selection_witness :
    (∃ s2, visit_slice s0C9 0 (.gen 3) (some 1) none (some 2) = .ok (.gen 0, s2) ∧
      s2.producers 0 = isliceSel (s0C9.producers 3) (some 1) none (some 2) ∧
      s2.producers 3 = s0C9.producers 3 ∧
      s2.forcedTab = s0C9.forcedTab ∧
      s2.chainTab = s0C9.chainTab) ∧
    isliceSel (s0C9.producers 3) none none none = s0C9.producers 3 ∧
    (∀ st : Int, st < 0 →
      visit_slice s0C9 0 (.gen 3) (some 1) none (some st) =
        .error "ValueError: Indices for islice() must be None or non-negative, step positive") :=
  C9_slice_lazy_selection s0C9 0 3 (some 1) none (some 2) rfl (by decide)

/-- C10: the slice operator funnels every base — including an
already-materialized eager Array — through the same `itertools.islice`
construction, so a slice whose start or stop is negative raises
`ValueError` at construction even though a concrete list would support
from-the-end indexing. -/
theorem C10_slice_negative_start_stop_errors (s : GenState) (fresh : Nat)
    (l : List Value) (start stop step : Option Int)
    (hneg : (∃ a, start = some a ∧ a < 0) ∨ (∃ b, stop = some b ∧ b < 0)) :
    visit_slice s fresh (.arr l) start stop step =
      .error "ValueError: Indices for islice() must be None or non-negative, step positive" := by
  have hv : isliceValid start stop step = false := by
    rcases hneg with ⟨a, ha, halt⟩ | ⟨b, hb, hblt⟩
    · subst ha
      have hd : ¬ (0 ≤ a) := by omega
      simp [isliceValid, hd]
    · subst hb
      have hd : ¬ (0 ≤ b) := by omega
      simp [isliceValid, hd]
  simp [visit_slice, hv]

/-- Witness for C10: slicing the eager two-element array with start `-1`
errors instead of selecting the last element. -/
theorem C10_slice_negative_start_stop_errors_witness :
    visit_slice emptyState 0 (.arr [Value.num 1, Value.num 2]) (some (-1)) none none =
      .error "ValueError: Indices for islice() must be None or non-negative, step positive" :=
  C10_slice_negative_start_stop_errors emptyState 0 [Value.num 1, Value.num 2]
    (some (-1)) none none (Or.inl ⟨-1, rfl, by decide⟩)

/-- The program `let({x: 1}, &x)`. -/
def progLetX : LNode :=
  .funcLet [.msd [("x", .literal (.num 1))], .expref (.field "x")]

/-- The program `let({x: 1}, &let({x: 2}, &x))` (inner shadows outer). -/
def progLetXX : LNode :=
  .funcLet [.msd [("x", .literal (.num 1))],
            .expref (.funcLet [.msd [("x", .literal (.num 2))],
                               .expref (.field "x")])]

/-- The program `let({x: 1}, &let({y: 2}, &x))` (unshadowed outer binding
referenced inside). -/
def progLetXY : LNode :=
  .funcLet [.msd [("x", .literal (.num 1))],
            .expref (.funcLet [.msd [("y", .literal (.num 2))],
                               .expref (.field "x")])]

/-- C4: evaluation of the code at the failing input.  Against the current
value 5 (which has neither keys nor matching attributes, so field lookup
falls to the scope), `let({x: 1}, &x)` gives 1 and the shadowing example
gives 2, but `let({x: 1}, &let({y: 2}, &x))` gives Null, not the claimed
1: line 142 calls `call_function` without forwarding `**kwargs`, so the
inner `_func_let` never receives the outer scope (its merge branch at
lines 67-69 is dead) and `x` is unbound inside the inner scope `{y: 2}`. -/
theorem C4_nested_let_drops_outer_scope :
    lvisit 10 progLetX (.num 5) none = .ok (.num 1) ∧
    lvisit 10 progLetXX (.num 5) none = .ok (.num 2) ∧
    lvisit 10 progLetXY (.num 5) none = .ok LVal.null ∧
    lvisit 10 progLetXY (.num 5) none ≠ .ok (.num 1) := by
  refine ⟨rfl, rfl, rfl, ?_⟩
  intro hcontra
  rw [show lvisit 10 progLetXY (.num 5) none = .ok LVal.null from rfl] at hcontra
  cases hcontra
